import Mathlib

/-!
# Shoes settings object (`shoes/types/settings.c`)

A shallow embedding of the settings object of Shoes: the C struct
`shoes_settings`, the function `shoes_settings_new` that fills it from the
startup configuration, and the accessor methods exported to Ruby.

Conventions of the embedding

* A Ruby `VALUE` is an element of the inductive type `VALUE`; only the kinds of
  value that `settings.c` creates or inspects have a constructor.
* A `char *` is `Option (List Char)`: `none` is `NULL`, `some l` points at a
  buffer holding the chars of `l` followed by a terminating NUL.  A NUL inside
  `l` ends the C string early, as it does in memory.
* `VALUE self` stands for the wrapped struct (`Data_Get_Struct`), and every
  method passes the struct through explicitly: it returns the Ruby result
  together with the struct as the call leaves it.
* A call that raises a Ruby exception, or whose behaviour C leaves undefined,
  returns `Except.error`.
-/

namespace Shoes

/-! ## Ruby values and the C library -/

/-- A Ruby `VALUE`: the immediates `Qnil`, `Qtrue`, `Qfalse`, a String (its bytes),
an Integer, or an Array. -/
inductive VALUE where
  | Qnil : VALUE
  | Qtrue : VALUE
  | Qfalse : VALUE
  | str (bytes : List Char) : VALUE
  | int (n : Int) : VALUE
  | ary (elems : List VALUE) : VALUE

/-- Ways in which a call does not return normally. -/
inductive Fault where
  | ArgumentError : Fault
  | TypeError : Fault
  | RangeError : Fault
  | NullDeref : Fault
  deriving DecidableEq, Repr

/-- The NUL character that terminates a C string. -/
def NUL : Char := Char.ofNat 0

/-- A `char *`: `NULL`, or the chars of the buffer it points at (a NUL follows them). -/
abbrev cptr := Option (List Char)

/-- The C string held by a buffer: its chars before the first NUL. -/
def cstr : List Char → List Char
  | [] => []
  | c :: cs => if c = NUL then [] else c :: cstr cs

/-- C library `strcmp` on two buffers: walks both until the chars differ or a NUL is
reached in both; the result is the difference of the two chars where it stops. -/
def strcmp_buf : List Char → List Char → Int
  | [], [] => 0
  | [], d :: _ => 0 - (d.toNat : Int)
  | c :: _, [] => (c.toNat : Int)
  | c :: cs, d :: ds =>
    if c = d then (if c = NUL then 0 else strcmp_buf cs ds)
    else (c.toNat : Int) - (d.toNat : Int)

/-- C library `strcmp`: undefined on `NULL`. -/
def strcmp (a b : cptr) : Except Fault Int :=
  match a, b with
  | some x, some y => .ok (strcmp_buf x y)
  | _, _ => .error Fault.NullDeref

/-- Ruby `rb_str_new2` (`rb_str_new_cstr`): a new String holding a copy of the C string;
raises `ArgumentError` on `NULL`. -/
def rb_str_new2 (p : cptr) : Except Fault VALUE :=
  match p with
  | none => .error Fault.ArgumentError
  | some b => .ok (VALUE.str (cstr b))

/-- Smallest value of a C `int`. -/
def INT_MIN : Int := -2147483648

/-- Largest value of a C `int`. -/
def INT_MAX : Int := 2147483647

/-- Ruby `INT2NUM`: the Integer equal to a C `int`. -/
def INT2NUM (i : Int) : VALUE := VALUE.int i

/-- Ruby `NUM2INT`: the C `int` equal to a Ruby Integer; raises `RangeError` when the
Integer does not fit an `int` and `TypeError` on nil, booleans, Strings and Arrays. -/
def NUM2INT (v : VALUE) : Except Fault Int :=
  match v with
  | VALUE.int n => if INT_MIN ≤ n ∧ n ≤ INT_MAX then .ok n else .error Fault.RangeError
  | _ => .error Fault.TypeError

/-- Ruby `rb_ary_new3(4, a, b, c, d)`: a new Array of the four values, in that order. -/
def rb_ary_new3_4 (a b c d : VALUE) : VALUE := VALUE.ary [a, b, c, d]

/-! ## Data model -/

/-- Modelled from the spec: the declaration of `shoes_settings` is in
`shoes/types/settings.h`, which is not part of the sources at hand.  The fields are
the ones `shoes_settings_alloc` sets and `shoes_settings_mark` marks. -/
structure shoes_settings where
  app_name : VALUE
  theme : VALUE
  mdi : VALUE
  rdomain : VALUE
  use_menus : VALUE
  dbus_name : VALUE

/-- Modelled from the spec: the declaration of `shoes_yaml_init` is in a header that is
not part of the sources at hand.  The fields are the `char *` members that
`shoes_settings_new` reads. -/
structure shoes_yaml_init where
  app_name : cptr
  theme_name : cptr
  rdomain : cptr
  mdi : cptr
  use_menus : cptr

/-- Modelled from the spec: the declaration of `shoes_monitor_t` is in a header that is
not part of the sources at hand.  The fields are the `int` members that
`shoes_settings_monitor_geometry` reads. -/
structure shoes_monitor_t where
  x : Int
  y : Int
  width : Int
  height : Int

/-- Modelled from the spec: the native layer (Cocoa, GTK) behind
`shoes_native_monitor_count`, `shoes_native_monitor_geometry` and
`shoes_native_monitor_default`, whose bodies are not part of the sources at hand.
Each field is what the function of that name returns (for the geometry: the rectangle
it stores through its second argument). -/
structure native_layer where
  shoes_native_monitor_count : Int
  shoes_native_monitor_geometry : Int → shoes_monitor_t
  shoes_native_monitor_default : Int

/-! ## The functions of `settings.c` -/

/-- `shoes_settings_alloc`: a zeroed struct whose six VALUE fields are set to `Qnil`. -/
def shoes_settings_alloc (_klass : VALUE) : shoes_settings :=
  { app_name := VALUE.Qnil
    theme := VALUE.Qnil
    mdi := VALUE.Qnil
    rdomain := VALUE.Qnil
    use_menus := VALUE.Qnil
    dbus_name := VALUE.Qnil }

/-- `shoes_settings_new`: fills the struct wrapped by `shoes_world->settings` (here `st`)
from the startup configuration and returns that object (here: the struct as filled). -/
def shoes_settings_new (yml : shoes_yaml_init) (st : shoes_settings) :
    Except Fault shoes_settings := do
  let app_name ← rb_str_new2 yml.app_name
  let st := { st with app_name := app_name }
  let theme ←
    match yml.theme_name with
    | none => pure VALUE.Qnil
    | some b => rb_str_new2 (some b)
  let st := { st with theme := theme }
  let rdomain ← rb_str_new2 yml.rdomain
  let st := { st with rdomain := rdomain }
  let c ← strcmp yml.mdi (some "true".toList)
  let st := if c = 0 then { st with mdi := VALUE.Qtrue } else { st with mdi := VALUE.Qnil }
  let c ← strcmp yml.use_menus (some "true".toList)
  let st :=
    if c = 0 then { st with use_menus := VALUE.Qtrue } else { st with use_menus := VALUE.Qnil }
  pure st

/-- `shoes_settings_dbus`: the dbus registered name. -/
def shoes_settings_dbus (st : shoes_settings) : VALUE × shoes_settings :=
  (st.dbus_name, st)

/-- `shoes_settings_app_name`: the stored app name. -/
def shoes_settings_app_name (st : shoes_settings) : VALUE × shoes_settings :=
  (st.app_name, st)

/-- `shoes_settings_get_theme`: the stored theme. -/
def shoes_settings_get_theme (st : shoes_settings) : VALUE × shoes_settings :=
  (st.theme, st)

/-- `shoes_settings_set_theme`: stores the theme and returns the stored field. -/
def shoes_settings_set_theme (st : shoes_settings) (theme : VALUE) :
    VALUE × shoes_settings :=
  let st := { st with theme := theme }
  (st.theme, st)

/-- `shoes_settings_mdi`: `st->mdi == Qtrue ? Qtrue : Qfalse`. -/
def shoes_settings_mdi (st : shoes_settings) : VALUE × shoes_settings :=
  (match st.mdi with
   | VALUE.Qtrue => VALUE.Qtrue
   | _ => VALUE.Qfalse, st)

/-- `shoes_settings_menu`: `st->use_menus == Qtrue ? Qtrue : Qfalse`. -/
def shoes_settings_menu (st : shoes_settings) : VALUE × shoes_settings :=
  (match st.use_menus with
   | VALUE.Qtrue => VALUE.Qtrue
   | _ => VALUE.Qfalse, st)

/-- `shoes_settings_rdomain`: the stored rdomain. -/
def shoes_settings_rdomain (st : shoes_settings) : VALUE × shoes_settings :=
  (st.rdomain, st)

/-- `shoes_settings_set_rdomain`: stores the rdomain and returns the stored field. -/
def shoes_settings_set_rdomain (st : shoes_settings) (name : VALUE) :
    VALUE × shoes_settings :=
  let st := { st with rdomain := name }
  (st.rdomain, st)

/-- `shoes_settings_monitor_geometry`: the rectangle of monitor `idx` as a Ruby Array. -/
def shoes_settings_monitor_geometry (nl : native_layer) (st : shoes_settings) (idx : VALUE) :
    Except Fault (VALUE × shoes_settings) := do
  let i ← NUM2INT idx
  let rect := nl.shoes_native_monitor_geometry i
  let ary := rb_ary_new3_4 (INT2NUM rect.x) (INT2NUM rect.y)
    (INT2NUM rect.width) (INT2NUM rect.height)
  pure (ary, st)

/-- `shoes_settings_monitor_default`: the native default monitor as a Ruby Integer. -/
def shoes_settings_monitor_default (nl : native_layer) (st : shoes_settings) :
    VALUE × shoes_settings :=
  let mon := nl.shoes_native_monitor_default
  (INT2NUM mon, st)

/-- The configuration used in the examples: the name "Shoes", no theme, mdi on, menus off. -/
def yml_example : shoes_yaml_init :=
  { app_name := some "Shoes".toList
    theme_name := none
    rdomain := some "com.shoesrb.shoes".toList
    mdi := some "true".toList
    use_menus := some "false".toList }

/-- A native layer with one 1920 by 1080 monitor at the origin, used in the examples. -/
def nl_example : native_layer :=
  { shoes_native_monitor_count := 1
    shoes_native_monitor_geometry := fun _ => { x := 0, y := 0, width := 1920, height := 1080 }
    shoes_native_monitor_default := 0 }

theorem char_toNat_inj {c d : Char} (h : c.toNat = d.toNat) : c = d := by
  have h2 := congrArg Char.ofNat h
  simpa using h2

theorem char_toNat_eq_zero {c : Char} : (c.toNat : Int) = 0 ↔ c = NUL := by
  constructor
  · intro h
    have h0 : c.toNat = NUL.toNat := by
      have : c.toNat = 0 := by exact_mod_cast h
      rw [this]; rfl
    exact char_toNat_inj h0
  · intro h
    subst h
    rfl

theorem char_sub_ne_zero {c d : Char} (h : c ≠ d) : (c.toNat : Int) - (d.toNat : Int) ≠ 0 := by
  intro h0
  apply h
  apply char_toNat_inj
  omega

/-- `strcmp` returns 0 exactly when the two buffers hold the same C string. -/
theorem strcmp_buf_eq_zero (a b : List Char) : strcmp_buf a b = 0 ↔ cstr a = cstr b := by
  induction a generalizing b with
  | nil =>
    cases b with
    | nil => simp [strcmp_buf, cstr]
    | cons d ds =>
      by_cases hd : d = NUL
      · subst hd
        simp [strcmp_buf, cstr]
        rfl
      · have hn : ¬ ((d.toNat : Int) = 0) := fun h => hd (char_toNat_eq_zero.mp h)
        simp [strcmp_buf, cstr, hd]
        exact_mod_cast hn
  | cons c cs ih =>
    cases b with
    | nil =>
      by_cases hc : c = NUL
      · subst hc
        simp [strcmp_buf, cstr]
        rfl
      · have hn : ¬ ((c.toNat : Int) = 0) := fun h => hc (char_toNat_eq_zero.mp h)
        simp [strcmp_buf, cstr, hc]
        exact_mod_cast hn
    | cons d ds =>
      by_cases hcd : c = d
      · subst hcd
        by_cases hc : c = NUL
        · simp [strcmp_buf, cstr, hc]
        · simp [strcmp_buf, cstr, hc, ih]
      · have hs := char_sub_ne_zero hcd
        simp only [strcmp_buf, cstr, if_neg hcd]
        constructor
        · intro h
          exact absurd h hs
        · intro h
          exfalso
          by_cases hc : c = NUL
          · by_cases hd : d = NUL
            · exact hcd (hc.trans hd.symm)
            · simp [hc, hd] at h
          · by_cases hd : d = NUL
            · simp [hc, hd] at h
            · simp [hc, hd] at h
              exact hcd h.1

theorem cstr_true : cstr "true".toList = "true".toList := by decide

/-- `strcmp(p, "true")` is 0 exactly when the C string at `p` is "true". -/
theorem strcmp_true (b : List Char) :
    strcmp (some b) (some "true".toList) = .ok (strcmp_buf b "true".toList) ∧
    (strcmp_buf b "true".toList = 0 ↔ cstr b = "true".toList) := by
  refine ⟨rfl, ?_⟩
  rw [strcmp_buf_eq_zero, cstr_true]

/-! ## What `shoes_settings_new` stores -/

/-- With the four unguarded pointers non-NULL, `shoes_settings_new` returns, and the
struct holds what this lemma lists. -/
theorem shoes_settings_new_some (a r m u : List Char) (t : cptr) (st : shoes_settings) :
    shoes_settings_new
      { app_name := some a, theme_name := t, rdomain := some r, mdi := some m,
        use_menus := some u } st
    = .ok
      { app_name := VALUE.str (cstr a)
        theme := (match t with
          | none => VALUE.Qnil
          | some b => VALUE.str (cstr b))
        mdi := if cstr m = "true".toList then VALUE.Qtrue else VALUE.Qnil
        rdomain := VALUE.str (cstr r)
        use_menus := if cstr u = "true".toList then VALUE.Qtrue else VALUE.Qnil
        dbus_name := st.dbus_name } := by
  have hm := (strcmp_true m).2
  have hu := (strcmp_true u).2
  cases t with
  | none =>
    by_cases h1 : cstr m = "true".toList <;> by_cases h2 : cstr u = "true".toList <;>
      simp only [shoes_settings_new, rb_str_new2, strcmp, bind, Except.bind, pure, Except.pure,
        hm, hu, h1, h2, if_true, if_false, not_false_eq_true]
  | some b =>
    by_cases h1 : cstr m = "true".toList <;> by_cases h2 : cstr u = "true".toList <;>
      simp only [shoes_settings_new, rb_str_new2, strcmp, bind, Except.bind, pure, Except.pure,
        hm, hu, h1, h2, if_true, if_false, not_false_eq_true]

/-- When `shoes_settings_new` returns, none of the four unguarded pointers was `NULL`. -/
theorem shoes_settings_new_ok_inv (yml : shoes_yaml_init) (st st' : shoes_settings)
    (h : shoes_settings_new yml st = .ok st') :
    ∃ a r m u, yml = shoes_yaml_init.mk (some a) yml.theme_name (some r) (some m) (some u) := by
  obtain ⟨an, tn, rd, md, um⟩ := yml
  cases an with
  | none => simp [shoes_settings_new, rb_str_new2, bind, Except.bind] at h
  | some a =>
    cases rd with
    | none =>
      cases tn <;> simp [shoes_settings_new, rb_str_new2, bind, Except.bind, pure, Except.pure] at h
    | some r =>
      cases md with
      | none =>
        cases tn <;>
          simp [shoes_settings_new, rb_str_new2, strcmp, bind, Except.bind, pure, Except.pure] at h
      | some m =>
        cases um with
        | none =>
          cases tn <;>
            simp [shoes_settings_new, rb_str_new2, strcmp, bind, Except.bind, pure,
              Except.pure] at h
        | some u => exact ⟨a, r, m, u, rfl⟩

/-- `shoes_settings_new` returns exactly when the four unguarded pointers are non-NULL. -/
theorem shoes_settings_new_returns_iff (yml : shoes_yaml_init) (st : shoes_settings) :
    (∃ st', shoes_settings_new yml st = .ok st') ↔
      (yml.app_name ≠ none ∧ yml.rdomain ≠ none ∧ yml.mdi ≠ none ∧ yml.use_menus ≠ none) := by
  constructor
  · rintro ⟨st', h⟩
    obtain ⟨a, r, m, u, hy⟩ := shoes_settings_new_ok_inv yml st st' h
    rw [hy]
    simp
  · rintro ⟨h1, h2, h3, h4⟩
    obtain ⟨an, tn, rd, md, um⟩ := yml
    cases an with
    | none => exact absurd rfl h1
    | some a =>
      cases rd with
      | none => exact absurd rfl h2
      | some r =>
        cases md with
        | none => exact absurd rfl h3
        | some m =>
          cases um with
          | none => exact absurd rfl h4
          | some u => exact ⟨_, shoes_settings_new_some a r m u tn st⟩

/-- The struct that a returning `shoes_settings_new` leaves, field by field. -/
theorem shoes_settings_new_fields (yml : shoes_yaml_init) (st st' : shoes_settings)
    (h : shoes_settings_new yml st = .ok st') :
    yml.app_name.map (fun b => VALUE.str (cstr b)) = some st'.app_name ∧
    (match yml.theme_name with
      | none => VALUE.Qnil
      | some b => VALUE.str (cstr b)) = st'.theme ∧
    yml.rdomain.map (fun b => VALUE.str (cstr b)) = some st'.rdomain ∧
    (if yml.mdi.map cstr = some "true".toList then VALUE.Qtrue else VALUE.Qnil) = st'.mdi ∧
    (if yml.use_menus.map cstr = some "true".toList then VALUE.Qtrue else VALUE.Qnil)
      = st'.use_menus ∧
    st.dbus_name = st'.dbus_name := by
  obtain ⟨a, r, m, u, hy⟩ := shoes_settings_new_ok_inv yml st st' h
  rw [hy, shoes_settings_new_some] at h
  injection h with h
  subst h
  rw [hy]
  simp

/-- The comparison with "true" takes the whole C string and is case-sensitive: "TRUE",
"true " and "tru" leave mdi at `Qnil`, while a buffer whose C string ends after "true"
sets it to `Qtrue`. -/
theorem shoes_settings_new_mdi_examples :
    (shoes_settings_new { yml_example with mdi := some "TRUE".toList }
      (shoes_settings_alloc VALUE.Qnil)).toOption.map (fun s => (shoes_settings_mdi s).1)
      = some VALUE.Qfalse ∧
    (shoes_settings_new { yml_example with mdi := some "true ".toList }
      (shoes_settings_alloc VALUE.Qnil)).toOption.map (fun s => (shoes_settings_mdi s).1)
      = some VALUE.Qfalse ∧
    (shoes_settings_new { yml_example with mdi := some "tru".toList }
      (shoes_settings_alloc VALUE.Qnil)).toOption.map (fun s => (shoes_settings_mdi s).1)
      = some VALUE.Qfalse ∧
    (shoes_settings_new { yml_example with mdi := some ("true".toList ++ NUL :: "x".toList) }
      (shoes_settings_alloc VALUE.Qnil)).toOption.map (fun s => (shoes_settings_mdi s).1)
      = some VALUE.Qtrue :=
  ⟨rfl, rfl, rfl, rfl⟩

/-- `NUM2INT` raises on an Integer outside the C `int` range and on a value that is not
an Integer, and so does `shoes_settings_monitor_geometry`. -/
theorem shoes_settings_monitor_geometry_raises (nl : native_layer) (st : shoes_settings) :
    shoes_settings_monitor_geometry nl st (VALUE.int 2147483648) = .error Fault.RangeError ∧
    shoes_settings_monitor_geometry nl st VALUE.Qnil = .error Fault.TypeError :=
  ⟨rfl, rfl⟩

/-! ## The claims -/

/-- C1: for every startup configuration (its four unguarded pointers non-NULL, the theme
pointer arbitrary) and every earlier content of the struct, `shoes_settings_new` returns,
and on the struct it has filled `shoes_settings_mdi` returns `Qtrue` when the C string
`yml->mdi` is exactly "true" and `Qfalse` for every other string; the result is never
`Qnil`, while the stored field is `Qnil` in the second case. -/
theorem shoes_settings_mdi_after_new (a r m u : List Char) (t : cptr) (st : shoes_settings) :
    ∃ st', shoes_settings_new (shoes_yaml_init.mk (some a) t (some r) (some m) (some u)) st
        = .ok st' ∧
      shoes_settings_mdi st' =
        ((if cstr m = "true".toList then VALUE.Qtrue else VALUE.Qfalse), st') ∧
      (shoes_settings_mdi st').1 ≠ VALUE.Qnil ∧
      (cstr m ≠ "true".toList → st'.mdi = VALUE.Qnil) := by
  refine ⟨_, shoes_settings_new_some a r m u t st, ?_⟩
  by_cases hc : cstr m = "true".toList
  · simp only [shoes_settings_mdi, if_pos hc]
    exact ⟨trivial, fun h0 => VALUE.noConfusion h0, fun h0 => absurd hc h0⟩
  · simp only [shoes_settings_mdi, if_neg hc]
    exact ⟨trivial, fun h0 => VALUE.noConfusion h0, fun _ => trivial⟩

/-- C2: for every startup configuration (its four unguarded pointers non-NULL, the theme
pointer arbitrary) and every earlier content of the struct, `shoes_settings_new` returns,
and on the struct it has filled `shoes_settings_menu` returns `Qtrue` when the C string
`yml->use_menus` is exactly "true" and `Qfalse` otherwise; the result is never `Qnil`, and
any other configuration with the same `use_menus` (whatever its mdi and other strings)
gives the same result. -/
theorem shoes_settings_menu_after_new (a r m u : List Char) (t : cptr) (st : shoes_settings) :
    ∃ st', shoes_settings_new (shoes_yaml_init.mk (some a) t (some r) (some m) (some u)) st
        = .ok st' ∧
      shoes_settings_menu st' =
        ((if cstr u = "true".toList then VALUE.Qtrue else VALUE.Qfalse), st') ∧
      (shoes_settings_menu st').1 ≠ VALUE.Qnil ∧
      (∀ (a2 r2 m2 : List Char) (t2 : cptr) (st2 : shoes_settings),
        ∃ st2', shoes_settings_new
            (shoes_yaml_init.mk (some a2) t2 (some r2) (some m2) (some u)) st2 = .ok st2' ∧
          (shoes_settings_menu st2').1 = (shoes_settings_menu st').1) := by
  refine ⟨_, shoes_settings_new_some a r m u t st, ?_, ?_, ?_⟩
  · by_cases hc : cstr u = "true".toList
    · simp only [shoes_settings_menu, if_pos hc]
    · simp only [shoes_settings_menu, if_neg hc]
  · by_cases hc : cstr u = "true".toList
    · simp only [shoes_settings_menu, if_pos hc]
      exact fun h0 => VALUE.noConfusion h0
    · simp only [shoes_settings_menu, if_neg hc]
      exact fun h0 => VALUE.noConfusion h0
  · intro a2 r2 m2 t2 st2
    exact ⟨_, shoes_settings_new_some a2 r2 m2 u t2 st2, rfl⟩

/-- C3: theme round trip.  For every settings struct and every value `t` (nil included),
`shoes_settings_set_theme` returns `t`, and `shoes_settings_get_theme` on the struct it
leaves returns `t` too. -/
theorem shoes_settings_theme_round_trip (st : shoes_settings) (t : VALUE) :
    (shoes_settings_set_theme st t).1 = t ∧
    (shoes_settings_get_theme (shoes_settings_set_theme st t).2).1 = t :=
  ⟨rfl, rfl⟩

/-- C4, as stated, fails: on the struct `shoes_settings_alloc` produces,
`shoes_settings_app_name` does not return the String "Shoes". -/
theorem shoes_settings_app_name_default_fails :
    (shoes_settings_app_name (shoes_settings_alloc VALUE.Qnil)).1 ≠ VALUE.str "Shoes".toList :=
  fun h0 => VALUE.noConfusion h0

/-- C4, amended: `shoes_settings_app_name` returns the stored app name and leaves the
struct alone; on the struct `shoes_settings_alloc` produces, to which no name has been
applied, that is `Qnil`. -/
theorem shoes_settings_app_name_fresh_is_nil (klass : VALUE) (st : shoes_settings) :
    shoes_settings_app_name st = (st.app_name, st) ∧
    (shoes_settings_app_name (shoes_settings_alloc klass)).1 = VALUE.Qnil :=
  ⟨rfl, rfl⟩

/-- C5: for every startup configuration (its four unguarded pointers non-NULL, the theme
pointer arbitrary) and every earlier content of the struct, `shoes_settings_new` returns,
and on the struct it has filled `shoes_settings_app_name` returns a String holding the C
string `yml->app_name` and `shoes_settings_rdomain` one holding the C string
`yml->rdomain`. -/
theorem shoes_settings_names_after_new (a r m u : List Char) (t : cptr)
    (st : shoes_settings) :
    ∃ st', shoes_settings_new (shoes_yaml_init.mk (some a) t (some r) (some m) (some u)) st
        = .ok st' ∧
      shoes_settings_app_name st' = (VALUE.str (cstr a), st') ∧
      shoes_settings_rdomain st' = (VALUE.str (cstr r), st') :=
  ⟨_, shoes_settings_new_some a r m u t st, rfl, rfl⟩

/-- C6: for every startup configuration (its four unguarded pointers non-NULL) and every
earlier content of the struct, the theme it held included, `shoes_settings_new` returns,
and on the struct it has filled `shoes_settings_get_theme` returns `Qnil` if and only if
`yml->theme_name` is `NULL`; when it is not `NULL` (the empty string included) the result
is a String holding that C string. -/
theorem shoes_settings_theme_after_new (a r m u : List Char) (t : cptr)
    (st : shoes_settings) :
    ∃ st', shoes_settings_new (shoes_yaml_init.mk (some a) t (some r) (some m) (some u)) st
        = .ok st' ∧
      ((shoes_settings_get_theme st').1 = VALUE.Qnil ↔ t = none) ∧
      (∀ b, t = some b → shoes_settings_get_theme st' = (VALUE.str (cstr b), st')) := by
  refine ⟨_, shoes_settings_new_some a r m u t st, ?_⟩
  cases t with
  | none => exact ⟨⟨fun _ => rfl, fun _ => rfl⟩, fun b hb => Option.noConfusion hb⟩
  | some b0 =>
    refine ⟨⟨fun h0 => VALUE.noConfusion h0, fun h0 => Option.noConfusion h0⟩, ?_⟩
    intro b hb
    injection hb with hb
    subst hb
    rfl

/-- C7: for every monitor index `i` (an Integer that fits the C `int` the native layer
takes), `shoes_settings_monitor_geometry` returns the Array of exactly the four Integers
x, y, width, height of the rectangle the native layer reports for monitor `i`, and leaves
the settings struct as it was. -/
theorem shoes_settings_monitor_geometry_spec (nl : native_layer) (st : shoes_settings)
    (i : Int) (hlo : INT_MIN ≤ i) (hhi : i ≤ INT_MAX) :
    shoes_settings_monitor_geometry nl st (VALUE.int i) =
      .ok (VALUE.ary
        [VALUE.int (nl.shoes_native_monitor_geometry i).x,
         VALUE.int (nl.shoes_native_monitor_geometry i).y,
         VALUE.int (nl.shoes_native_monitor_geometry i).width,
         VALUE.int (nl.shoes_native_monitor_geometry i).height], st) := by
  simp only [shoes_settings_monitor_geometry, NUM2INT, bind, Except.bind, pure, Except.pure,
    rb_ary_new3_4, INT2NUM, if_pos (And.intro hlo hhi)]

/-- Witness of C7: monitor 0 of the example native layer. -/
theorem shoes_settings_monitor_geometry_spec_witness :
    shoes_settings_monitor_geometry nl_example (shoes_settings_alloc VALUE.Qnil) (VALUE.int 0) =
      .ok (VALUE.ary [VALUE.int 0, VALUE.int 0, VALUE.int 1920, VALUE.int 1080],
        shoes_settings_alloc VALUE.Qnil) :=
  shoes_settings_monitor_geometry_spec nl_example (shoes_settings_alloc VALUE.Qnil) 0
    (by decide) (by decide)

end Shoes
